import Mathlib

/-
  Verification development for the retrieval-augmented-generation query
  pipeline: the `match_document_chunks` SQL function (vector similarity
  search) and the `query-rag` edge function (orchestrator, context
  assembler, answer generator glue, citation builder).

  Machine reals are modelled by ℚ; the external cosine-distance operator
  `<=>` of the vector store is an explicit parameter `dist`, since its
  implementation lives outside the repository.  JavaScript truthiness of
  JSON metadata values is modelled by `JsonVal.truthy`.
-/

namespace Rag

/-- A row of the `documents` table (the columns the pipeline reads). -/
structure Document where
  id : String
  uploaded_by : String
  filename : String
  file_type : String
  processing_status : String
deriving DecidableEq

/-- A JSON scalar value as stored in `chunk_metadata` (jsonb). -/
inductive JsonVal where
  | null : JsonVal
  | bool : Bool → JsonVal
  | num : ℚ → JsonVal
  | str : String → JsonVal
deriving DecidableEq

/-- JavaScript truthiness of a JSON scalar: null, false, 0 and "" are falsy. -/
def JsonVal.truthy : JsonVal → Bool
  | .null => false
  | .bool b => b
  | .num q => q != 0
  | .str s => s != ""

/-- Template-literal stringification of a JSON scalar. -/
def JsonVal.jsShow : JsonVal → String
  | .null => "null"
  | .bool true => "true"
  | .bool false => "false"
  | .num q => toString q
  | .str s => s

/-- The metadata keys the citation builder reads from `chunk_metadata`;
a missing key is `none`. -/
structure ChunkMetadata where
  page_number : Option JsonVal
  timestamp : Option JsonVal
deriving DecidableEq

/-- A row of the `document_chunks` table; `embedding` is nullable. -/
structure DocumentChunk where
  id : String
  document_id : String
  chunk_text : String
  chunk_index : Int
  chunk_metadata : Option ChunkMetadata
  embedding : Option (List ℚ)
deriving DecidableEq

/-- The store state visible to `match_document_chunks`: the two tables,
rows in physical order. -/
structure Store where
  documents : List Document
  document_chunks : List DocumentChunk
deriving DecidableEq

/-- A row of the table returned by `match_document_chunks`. -/
structure Row where
  id : String
  document_id : String
  chunk_text : String
  chunk_index : Int
  chunk_metadata : Option ChunkMetadata
  filename : String
  file_type : String
  similarity : ℚ
deriving DecidableEq

/-- The INNER JOIN of `document_chunks` with `documents` on
`dc.document_id = d.id`. -/
def joinedPairs (store : Store) : List (DocumentChunk × Document) :=
  store.document_chunks.flatMap fun dc =>
    (store.documents.filter fun d => d.id == dc.document_id).map fun d => (dc, d)

/-- The ORDER BY key: `dc.embedding <=> query_embedding` (cosine distance,
ascending).  The WHERE clause guarantees the embedding is non-null wherever
the key is used, so the `getD` default is never reached there. -/
def pairKey (dist : List ℚ → List ℚ → ℚ) (query_embedding : List ℚ)
    (p : DocumentChunk × Document) : ℚ :=
  dist (p.1.embedding.getD []) query_embedding

/-- The WHERE clause of `match_document_chunks`:
`(user_id_filter IS NULL OR d.uploaded_by = user_id_filter) AND
 dc.embedding IS NOT NULL AND
 1 - (dc.embedding <=> query_embedding) > match_threshold AND
 d.processing_status = 'completed'`. -/
def eligiblePred (dist : List ℚ → List ℚ → ℚ) (query_embedding : List ℚ)
    (match_threshold : ℚ) (user_id_filter : Option String)
    (p : DocumentChunk × Document) : Bool :=
  (match user_id_filter with
    | none => true
    | some u => p.2.uploaded_by == u)
  && p.1.embedding.isSome
  && decide (1 - dist (p.1.embedding.getD []) query_embedding > match_threshold)
  && (p.2.processing_status == "completed")

/-- Insert into a list sorted by ascending key, keeping it sorted. -/
def insertAsc (key : α → ℚ) (a : α) : List α → List α
  | [] => [a]
  | b :: l => if key a ≤ key b then a :: b :: l else b :: insertAsc key a l

/-- Sort by ascending key (one admissible execution of ORDER BY). -/
def sortAsc (key : α → ℚ) : List α → List α
  | [] => []
  | a :: l => insertAsc key a (sortAsc key l)

/-- The SELECT list of `match_document_chunks`:
`dc.id, dc.document_id, dc.chunk_text, dc.chunk_index, dc.chunk_metadata,
 d.filename, d.file_type, 1 - (dc.embedding <=> query_embedding)`. -/
def rowOfPair (dist : List ℚ → List ℚ → ℚ) (query_embedding : List ℚ)
    (p : DocumentChunk × Document) : Row :=
  ⟨p.1.id, p.1.document_id, p.1.chunk_text, p.1.chunk_index, p.1.chunk_metadata,
   p.2.filename, p.2.file_type, 1 - dist (p.1.embedding.getD []) query_embedding⟩

/-- The stored procedure `match_document_chunks`: join, filter by the WHERE
clause, ORDER BY cosine distance ascending, LIMIT `match_count`. -/
def match_document_chunks (dist : List ℚ → List ℚ → ℚ) (store : Store)
    (query_embedding : List ℚ) (match_threshold : ℚ) (match_count : ℕ)
    (user_id_filter : Option String) : List Row :=
  (((joinedPairs store).filter
      (eligiblePred dist query_embedding match_threshold user_id_filter)
    |> sortAsc (pairKey dist query_embedding)).map
      (rowOfPair dist query_embedding)).take match_count

/-- A citation produced by the citation builder. -/
structure Citation where
  source : String
  type : String
  reference : String
  document_id : String
deriving DecidableEq

/-- An entry of the `retrieved_chunks` trace in the response. -/
structure RetrievedChunk where
  chunk_id : String
  document_id : String
  score : ℚ
deriving DecidableEq

/-- `s.charAt(0).toUpperCase() + s.slice(1)` (ASCII case, which covers the
closed set of modality tags). -/
def capFirst (s : String) : String :=
  match s.data with
  | [] => ""
  | c :: cs => String.mk (Char.toUpper c :: cs)

/-- Truthiness of an optional JSON value: a missing key is falsy. -/
def truthyOpt : Option JsonVal → Bool
  | none => false
  | some v => v.truthy

/-- Stringification of an optional JSON value inside a template literal. -/
def jsShowOpt : Option JsonVal → String
  | none => "undefined"
  | some v => v.jsShow

/-- The optional-chained `chunk.chunk_metadata?.page_number`. -/
def pageNumberOf (md : Option ChunkMetadata) : Option JsonVal :=
  md.bind fun m => m.page_number

/-- The optional-chained `chunk.chunk_metadata?.timestamp`. -/
def timestampOf (md : Option ChunkMetadata) : Option JsonVal :=
  md.bind fun m => m.timestamp

/-- The reference string of a citation, the nested conditional
`pn ? "Page pn" : ts ? "Timestamp ts" : "Chunk index"` where the JS
conditions are truthiness tests. -/
def referenceOf (md : Option ChunkMetadata) (chunk_index : Int) : String :=
  if truthyOpt (pageNumberOf md) then "Page " ++ jsShowOpt (pageNumberOf md)
  else if truthyOpt (timestampOf md) then "Timestamp " ++ jsShowOpt (timestampOf md)
  else "Chunk " ++ toString chunk_index

/-- One citation: `{source: filename, type: capitalized file_type,
reference, document_id}`. -/
def citationOf (r : Row) : Citation :=
  ⟨r.filename, capFirst r.file_type, referenceOf r.chunk_metadata r.chunk_index,
   r.document_id⟩

/-- The citation builder: `chunks.map(...)`, one citation per row in
retriever order. -/
def buildCitations (chunks : List Row) : List Citation :=
  chunks.map citationOf

/-- One `retrieved_chunks` entry: `{chunk_id: c.id, document_id, score:
c.similarity}`. -/
def retrievedOf (r : Row) : RetrievedChunk :=
  ⟨r.id, r.document_id, r.similarity⟩

/-- `map` with the element index, starting at `n`. -/
def mapIdxFrom (f : ℕ → α → β) : ℕ → List α → List β
  | _, [] => []
  | n, a :: l => f n a :: mapIdxFrom f (n + 1) l

/-- One context entry:
`[index+1] From filename (file_type):\nchunk_text\n`. -/
def contextEntry (index : ℕ) (chunk : Row) : String :=
  "[" ++ toString (index + 1) ++ "] From " ++ chunk.filename ++ " ("
    ++ chunk.file_type ++ "):\n" ++ chunk.chunk_text ++ "\n"

/-- The context assembler: numbered entries joined with `'\n'`. -/
def buildContext (chunks : List Row) : String :=
  String.intercalate "\n" (mapIdxFrom contextEntry 0 chunks)

/-- The user-visible outcomes of the handler, one constructor per response
shape it can produce. -/
inductive Response where
  | badRequest (error : String)
  | searchFailed (error : String) (details : String)
  | internalError (error : String) (details : String)
  | success (answer : String) (citations : List Citation)
      (retrieved_chunks : List RetrievedChunk)
deriving DecidableEq

/-- Which outbound calls a handler run performed. -/
structure Calls where
  embedCalled : Bool
  retrieveCalled : Bool
  generateCalled : Bool
deriving DecidableEq

/-- JS falsiness of an optional request string: missing or empty is falsy
(`!query`, `!user_id`); whitespace-only strings are truthy. -/
def jsFalsyStr : Option String → Bool
  | none => true
  | some s => s == ""

/-- The fixed answer returned when retrieval yields no chunks. -/
def fallbackAnswer : String :=
  "I could not find any relevant information in your documents to answer this question. Please ensure you have uploaded documents related to this topic."

/-- The `query-rag` request handler.  `embed` models `generateEmbedding`
(it throws, i.e. returns `.error`, when the capability is unreachable or
its reply is malformed); `generate` models `generateAnswer`; `searchError`
models the `error` field of the `supabase.rpc` result, with the rpc data
given by `match_document_chunks` on `store` when there is no error.  A
thrown error is caught by the surrounding try/catch, which answers with
the generic 500 envelope. -/
def handleQuery (dist : List ℚ → List ℚ → ℚ) (store : Store)
    (embed : String → Except String (List ℚ))
    (generate : String → String → Except String String)
    (searchError : Option String)
    (query : Option String) (user_id : Option String) : Response × Calls :=
  if jsFalsyStr query || jsFalsyStr user_id then
    (.badRequest "Query and user_id are required", ⟨false, false, false⟩)
  else
    match embed (query.getD "") with
    | .error msg => (.internalError "Internal server error" msg, ⟨true, false, false⟩)
    | .ok queryEmbedding =>
      match searchError with
      | some e => (.searchFailed "Search failed" e, ⟨true, true, false⟩)
      | none =>
        let chunks := match_document_chunks dist store queryEmbedding (mkRat 3 10) 10 user_id
        if chunks.isEmpty then
          (.success fallbackAnswer [] [], ⟨true, true, false⟩)
        else
          match generate (query.getD "") (buildContext chunks) with
          | .error msg => (.internalError "Internal server error" msg, ⟨true, true, true⟩)
          | .ok answer =>
            (.success answer (buildCitations chunks) (chunks.map retrievedOf),
             ⟨true, true, true⟩)

/-- Membership in `insertAsc` is membership in the inserted element or the
original list. -/
theorem mem_insertAsc (key : α → ℚ) (a x : α) (l : List α) :
    x ∈ insertAsc key a l ↔ x = a ∨ x ∈ l := by
  induction l with
  | nil => simp [insertAsc]
  | cons b l ih =>
    simp only [insertAsc]
    split
    · simp [List.mem_cons]
    · simp only [List.mem_cons, ih]
      tauto

/-- `sortAsc` permutes membership. -/
theorem mem_sortAsc (key : α → ℚ) (x : α) (l : List α) :
    x ∈ sortAsc key l ↔ x ∈ l := by
  induction l with
  | nil => simp [sortAsc]
  | cons a l ih => simp [sortAsc, mem_insertAsc, ih]

/-- Inserting into a key-sorted list keeps it key-sorted. -/
theorem pairwise_insertAsc (key : α → ℚ) (a : α) (l : List α)
    (h : l.Pairwise fun x y => key x ≤ key y) :
    (insertAsc key a l).Pairwise fun x y => key x ≤ key y := by
  induction l with
  | nil => simp [insertAsc]
  | cons b l ih =>
    rw [List.pairwise_cons] at h
    obtain ⟨hb, hl⟩ := h
    simp only [insertAsc]
    split
    · rename_i hab
      refine List.pairwise_cons.mpr ⟨?_, List.pairwise_cons.mpr ⟨hb, hl⟩⟩
      intro y hy
      rcases List.mem_cons.mp hy with rfl | hy
      · exact hab
      · exact le_trans hab (hb y hy)
    · rename_i hab
      refine List.pairwise_cons.mpr ⟨?_, ih hl⟩
      intro y hy
      rcases (mem_insertAsc key a y l).mp hy with rfl | hy
      · exact le_of_not_le hab
      · exact hb y hy

/-- `sortAsc` produces a list whose keys are non-decreasing. -/
theorem pairwise_sortAsc (key : α → ℚ) (l : List α) :
    (sortAsc key l).Pairwise fun x y => key x ≤ key y := by
  induction l with
  | nil => simp [sortAsc]
  | cons a l ih => exact pairwise_insertAsc key a _ ih

/-- Decomposition of membership in the retriever output: every returned row
comes from a chunk/document pair of the store that passes every conjunct of
the WHERE clause. -/
theorem mem_match_document_chunks (dist : List ℚ → List ℚ → ℚ) (store : Store)
    (qe : List ℚ) (θ : ℚ) (k : ℕ) (f : Option String) (r : Row)
    (h : r ∈ match_document_chunks dist store qe θ k f) :
    ∃ dc ∈ store.document_chunks, ∃ d ∈ store.documents,
      r = rowOfPair dist qe (dc, d) ∧ d.id = dc.document_id ∧
      dc.embedding.isSome = true ∧
      θ < 1 - dist (dc.embedding.getD []) qe ∧
      d.processing_status = "completed" ∧
      ∀ u, f = some u → d.uploaded_by = u := by
  unfold match_document_chunks at h
  have h1 := List.mem_of_mem_take h
  obtain ⟨p, hp, rfl⟩ := List.mem_map.mp h1
  rw [mem_sortAsc] at hp
  obtain ⟨hpj, hpe⟩ := List.mem_filter.mp hp
  obtain ⟨dc, hdc, hpd⟩ := List.mem_flatMap.mp hpj
  obtain ⟨d, hd, rfl⟩ := List.mem_map.mp hpd
  obtain ⟨hdmem, hdid⟩ := List.mem_filter.mp hd
  simp only [eligiblePred, Bool.and_eq_true, beq_iff_eq, decide_eq_true_eq] at hpe
  obtain ⟨⟨⟨hown, hemb⟩, hthr⟩, hstatus⟩ := hpe
  refine ⟨dc, hdc, d, hdmem, rfl, ?_, hemb, ?_, hstatus, ?_⟩
  · exact beq_iff_eq.mp hdid
  · exact hthr
  · intro u hu
    rw [hu] at hown
    exact beq_iff_eq.mp hown

/-- Every returned row's similarity is strictly above the threshold. -/
theorem threshold_match_document_chunks (dist : List ℚ → List ℚ → ℚ)
    (store : Store) (qe : List ℚ) (θ : ℚ) (k : ℕ) (f : Option String) (r : Row)
    (h : r ∈ match_document_chunks dist store qe θ k f) : θ < r.similarity := by
  obtain ⟨dc, _, d, _, rfl, _, _, hthr, _, _⟩ :=
    mem_match_document_chunks dist store qe θ k f r h
  exact hthr

/-- The retriever output is non-increasing in similarity. -/
theorem sorted_match_document_chunks (dist : List ℚ → List ℚ → ℚ)
    (store : Store) (qe : List ℚ) (θ : ℚ) (k : ℕ) (f : Option String) :
    (match_document_chunks dist store qe θ k f).Pairwise
      fun x y => y.similarity ≤ x.similarity := by
  unfold match_document_chunks
  apply List.Pairwise.sublist (List.take_sublist _ _)
  rw [List.pairwise_map]
  refine List.Pairwise.imp ?_ (pairwise_sortAsc (pairKey dist qe) _)
  intro a b hab
  simp only [rowOfPair, pairKey] at hab ⊢
  linarith

/-- The retriever returns at most `match_count` rows. -/
theorem length_match_document_chunks (dist : List ℚ → List ℚ → ℚ)
    (store : Store) (qe : List ℚ) (θ : ℚ) (k : ℕ) (f : Option String) :
    (match_document_chunks dist store qe θ k f).length ≤ k := by
  unfold match_document_chunks
  rw [List.length_take]
  exact Nat.min_le_left _ _

/-- Shape of every successful handler response: validation passed, the
embedding call succeeded, the rpc reported no error, and the citations and
retrieval trace are those derived from `match_document_chunks` at threshold
3/10 and cap 10 (empty when no chunk matched). -/
theorem success_shape (dist : List ℚ → List ℚ → ℚ) (store : Store)
    (embed : String → Except String (List ℚ))
    (generate : String → String → Except String String)
    (se : Option String) (query user_id : Option String)
    (a : String) (cs : List Citation) (rcs : List RetrievedChunk)
    (h : (handleQuery dist store embed generate se query user_id).1 =
      .success a cs rcs) :
    ∃ emb, embed (query.getD "") = .ok emb ∧ se = none ∧
      ((match_document_chunks dist store emb (mkRat 3 10) 10 user_id = [] ∧
        a = fallbackAnswer ∧ cs = [] ∧ rcs = []) ∨
       (match_document_chunks dist store emb (mkRat 3 10) 10 user_id ≠ [] ∧
        cs = buildCitations
          (match_document_chunks dist store emb (mkRat 3 10) 10 user_id) ∧
        rcs = (match_document_chunks dist store emb (mkRat 3 10) 10 user_id).map
          retrievedOf)) := by
  unfold handleQuery at h
  by_cases hv : (jsFalsyStr query || jsFalsyStr user_id) = true
  · rw [if_pos hv] at h
    simp at h
  · rw [if_neg hv] at h
    cases he : embed (query.getD "") with
    | error msg => rw [he] at h; simp at h
    | ok emb =>
      rw [he] at h
      refine ⟨emb, rfl, ?_⟩
      cases se with
      | some e => simp at h
      | none =>
        simp only at h
        refine ⟨rfl, ?_⟩
        by_cases hemp :
            (match_document_chunks dist store emb (mkRat 3 10) 10 user_id).isEmpty
        · rw [if_pos hemp] at h
          simp only [Prod.fst] at h
          obtain ⟨ha, hc, hr⟩ := Response.success.inj h
          exact Or.inl ⟨List.isEmpty_iff.mp hemp, ha.symm, hc.symm, hr.symm⟩
        · rw [if_neg hemp] at h
          cases hg : generate (query.getD "")
              (buildContext (match_document_chunks dist store emb (mkRat 3 10) 10 user_id)) with
          | error msg => rw [hg] at h; simp at h
          | ok ans =>
            rw [hg] at h
            simp only [Prod.fst] at h
            obtain ⟨ha, hc, hr⟩ := Response.success.inj h
            refine Or.inr ⟨?_, hc.symm, hr.symm⟩
            intro hnil
            exact hemp (List.isEmpty_iff.mpr hnil)

/-- A sample distance function for concrete runs: the distance is the first
coordinate of the stored embedding. -/
def sampleDist : List ℚ → List ℚ → ℚ := fun e _ => e.headD 1

/-- A completed document owned by user u1. -/
def docA : Document := ⟨"d1", "u1", "policy.pdf", "pdf", "completed"⟩

/-- A completed document owned by another user u2. -/
def docB : Document := ⟨"d2", "u2", "notes.txt", "txt", "completed"⟩

/-- A document of u1 that is still processing. -/
def docC : Document := ⟨"d3", "u1", "draft.txt", "txt", "processing"⟩

/-- An eligible chunk of docA with a page number (similarity 81/100). -/
def chunkA : DocumentChunk :=
  ⟨"c1", "d1", "Refunds within 30 days.", 2, some ⟨some (.num 4), none⟩,
   some [mkRat 19 100]⟩

/-- An eligible chunk of docA whose page number is the falsy 0 and whose
timestamp is truthy (similarity 1/2). -/
def chunkB : DocumentChunk :=
  ⟨"c2", "d1", "Other text", 3, some ⟨some (.num 0), some (.str "5:00")⟩,
   some [mkRat 1 2]⟩

/-- A chunk owned by the other user. -/
def chunkC : DocumentChunk := ⟨"c3", "d2", "Foreign", 0, none, some [mkRat 1 10]⟩

/-- A chunk of the still-processing document. -/
def chunkD : DocumentChunk := ⟨"c4", "d3", "Unprocessed", 0, none, some [mkRat 1 10]⟩

/-- A chunk of docA with a NULL embedding. -/
def chunkE : DocumentChunk := ⟨"c5", "d1", "No embedding", 1, none, none⟩

/-- A concrete store exercising every WHERE-clause conjunct. -/
def sampleStore : Store := ⟨[docA, docB, docC], [chunkA, chunkB, chunkC, chunkD, chunkE]⟩

/-- An embedding capability that succeeds with the empty vector. -/
def sampleEmbed : String → Except String (List ℚ) := fun _ => .ok []

/-- A generation capability that succeeds with a fixed answer. -/
def sampleGenerate : String → String → Except String String := fun _ _ => .ok "answer"

/-- An embedding capability that is unreachable. -/
def embedFailing : String → Except String (List ℚ) :=
  fun _ => .error "upstream unreachable"

/-- A generation capability that is unreachable. -/
def generateFailing : String → String → Except String String :=
  fun _ _ => .error "upstream unreachable"

/-- The retriever row for chunkA joined with docA. -/
def rowA : Row := rowOfPair sampleDist [] (chunkA, docA)

/-- The retriever row for chunkB joined with docA. -/
def rowB : Row := rowOfPair sampleDist [] (chunkB, docA)

/-- A store with no documents and no chunks. -/
def emptyStore : Store := ⟨[], []⟩

/-- Claim C1: every row returned by the retriever has similarity strictly
greater than the supplied threshold, the sequence is non-increasing in
similarity, and its length is at most the result cap; and because the
orchestrator invokes retrieval with threshold 3/10 and cap 10, every
successful response's retrieval trace has all scores above 3/10, is
non-increasing in score, and has at most 10 entries. -/
theorem claim1_retrieval_threshold_order_cap
    (dist : List ℚ → List ℚ → ℚ) (store : Store) (qe : List ℚ) (θ : ℚ) (k : ℕ)
    (f : Option String)
    (embed : String → Except String (List ℚ))
    (generate : String → String → Except String String)
    (se : Option String) (query user_id : Option String)
    (a : String) (cs : List Citation) (rcs : List RetrievedChunk) :
    (∀ r ∈ match_document_chunks dist store qe θ k f, θ < r.similarity) ∧
    ((match_document_chunks dist store qe θ k f).Pairwise
      fun x y => y.similarity ≤ x.similarity) ∧
    (match_document_chunks dist store qe θ k f).length ≤ k ∧
    ((handleQuery dist store embed generate se query user_id).1 =
        .success a cs rcs →
      (∀ rc ∈ rcs, mkRat 3 10 < rc.score) ∧
      (rcs.Pairwise fun x y => y.score ≤ x.score) ∧
      rcs.length ≤ 10) := by
  refine ⟨fun r hr => threshold_match_document_chunks dist store qe θ k f r hr,
    sorted_match_document_chunks dist store qe θ k f,
    length_match_document_chunks dist store qe θ k f, fun h => ?_⟩
  obtain ⟨emb, hemb, hse, hcase⟩ :=
    success_shape dist store embed generate se query user_id a cs rcs h
  rcases hcase with ⟨hnil, ha, hc, hr⟩ | ⟨hne, hc, hr⟩
  · subst hr
    exact ⟨fun rc hrc => absurd hrc (List.not_mem_nil rc), List.Pairwise.nil,
      Nat.zero_le 10⟩
  · subst hr
    refine ⟨?_, ?_, ?_⟩
    · intro rc hrc
      obtain ⟨r, hrmem, rfl⟩ := List.mem_map.mp hrc
      exact threshold_match_document_chunks dist store emb
        (mkRat 3 10) 10 user_id r hrmem
    · rw [List.pairwise_map]
      refine List.Pairwise.imp ?_
        (sorted_match_document_chunks dist store emb (mkRat 3 10) 10 user_id)
      intro x y hxy
      simpa [retrievedOf] using hxy
    · rw [List.length_map]
      exact length_match_document_chunks dist store emb (mkRat 3 10) 10 user_id

/-- Witness for C1 at a concrete store: the first returned row for the
sample query scores above 3/10, and a concrete successful run's trace has
at most 10 entries. -/
theorem claim1_retrieval_threshold_order_cap_witness :
    mkRat 3 10 < rowA.similarity ∧
    [retrievedOf rowA, retrievedOf rowB].length ≤ 10 :=
  ⟨(claim1_retrieval_threshold_order_cap sampleDist sampleStore [] (mkRat 3 10)
      10 (some "u1") sampleEmbed sampleGenerate none (some "q") (some "u1")
      "answer" [] []).1 rowA (by with_unfolding_all decide),
   ((claim1_retrieval_threshold_order_cap sampleDist sampleStore [] (mkRat 3 10)
      10 (some "u1") sampleEmbed sampleGenerate none (some "q") (some "u1")
      "answer" (buildCitations [rowA, rowB])
      [retrievedOf rowA, retrievedOf rowB]).2.2.2
      (by with_unfolding_all decide)).2.2⟩

/-- Length of `mapIdxFrom`. -/
theorem length_mapIdxFrom (f : ℕ → α → β) (n : ℕ) (l : List α) :
    (mapIdxFrom f n l).length = l.length := by
  induction l generalizing n with
  | nil => rfl
  | cons a l ih => simp [mapIdxFrom, ih]

/-- The element of `mapIdxFrom` at position `i` is `f` applied at index
`n + i` to the element of the base list at position `i`. -/
theorem get_mapIdxFrom (f : ℕ → α → β) (n : ℕ) (l : List α) (i : ℕ)
    (h : i < l.length) (h2 : i < (mapIdxFrom f n l).length) :
    (mapIdxFrom f n l).get ⟨i, h2⟩ = f (n + i) (l.get ⟨i, h⟩) := by
  induction l generalizing n i with
  | nil => cases h
  | cons a l ih =>
    cases i with
    | zero => simp [mapIdxFrom]
    | succ j =>
      have hj : j < l.length := Nat.lt_of_succ_lt_succ h
      have hj2 : j < (mapIdxFrom f (n + 1) l).length := by
        rw [length_mapIdxFrom]; exact hj
      simp only [mapIdxFrom, List.get]
      rw [ih (n + 1) j hj hj2]
      congr 1
      omega

/-- Claim C2: for every retrieved fragment list and every position `i`,
the `i`-th context entry is built from the `i`-th fragment and carries the
ordinal `i + 1`, while the `i`-th citation (1-based index `i + 1`) is built
from that same fragment — so context marker [N] and citation index N refer
to the same fragment. -/
theorem claim2_context_citation_alignment (chunks : List Row) (i : ℕ)
    (h : i < chunks.length)
    (h1 : i < (mapIdxFrom contextEntry 0 chunks).length)
    (h2 : i < (buildCitations chunks).length) :
    (mapIdxFrom contextEntry 0 chunks).get ⟨i, h1⟩ =
      contextEntry i (chunks.get ⟨i, h⟩) ∧
    contextEntry i (chunks.get ⟨i, h⟩) =
      "[" ++ toString (i + 1) ++ "] From " ++ (chunks.get ⟨i, h⟩).filename
        ++ " (" ++ (chunks.get ⟨i, h⟩).file_type ++ "):\n"
        ++ (chunks.get ⟨i, h⟩).chunk_text ++ "\n" ∧
    (buildCitations chunks).get ⟨i, h2⟩ = citationOf (chunks.get ⟨i, h⟩) ∧
    buildContext chunks = String.intercalate "\n" (mapIdxFrom contextEntry 0 chunks) := by
  refine ⟨?_, ?_, ?_, rfl⟩
  · have := get_mapIdxFrom contextEntry 0 chunks i h h1
    simpa using this
  · simp [contextEntry]
  · simp [buildCitations]

/-- Witness for C2 at a concrete two-fragment list, position 1. -/
theorem claim2_context_citation_alignment_witness :
    (mapIdxFrom contextEntry 0 [rowA, rowB]).get ⟨1, by with_unfolding_all decide⟩ =
      contextEntry 1 ([rowA, rowB].get ⟨1, by with_unfolding_all decide⟩) ∧
    (buildCitations [rowA, rowB]).get ⟨1, by with_unfolding_all decide⟩ =
      citationOf ([rowA, rowB].get ⟨1, by with_unfolding_all decide⟩) := by
  have h := claim2_context_citation_alignment [rowA, rowB] 1
    (by with_unfolding_all decide) (by with_unfolding_all decide)
    (by with_unfolding_all decide)
  exact ⟨h.1, h.2.2.1⟩

/-- Claim C3: the citation reference follows the precedence page-number
first (also when a timestamp is present), then timestamp, then chunk index;
and the type label is the modality tag with its first character
capitalized.  Presence of a metadata value is its JS truthiness (claim
C10). -/
theorem claim3_reference_precedence (r : Row) :
    (citationOf r).type = capFirst r.file_type ∧
    capFirst "audio" = "Audio" ∧
    (truthyOpt (pageNumberOf r.chunk_metadata) = true →
      (citationOf r).reference =
        "Page " ++ jsShowOpt (pageNumberOf r.chunk_metadata)) ∧
    (truthyOpt (pageNumberOf r.chunk_metadata) = false →
      truthyOpt (timestampOf r.chunk_metadata) = true →
      (citationOf r).reference =
        "Timestamp " ++ jsShowOpt (timestampOf r.chunk_metadata)) ∧
    (truthyOpt (pageNumberOf r.chunk_metadata) = false →
      truthyOpt (timestampOf r.chunk_metadata) = false →
      (citationOf r).reference = "Chunk " ++ toString r.chunk_index) := by
  refine ⟨rfl, by with_unfolding_all decide, ?_, ?_, ?_⟩
  · intro hp
    simp [citationOf, referenceOf, hp]
  · intro hp ht
    simp [citationOf, referenceOf, hp, ht]
  · intro hp ht
    simp [citationOf, referenceOf, hp, ht]

/-- Witness for C3: a fragment with both a page number and a timestamp gets
the page form. -/
theorem claim3_reference_precedence_witness :
    (citationOf (rowOfPair sampleDist []
      (⟨"c9", "d1", "t", 7, some ⟨some (.num 4), some (.str "5:00")⟩,
        some [0]⟩, docA))).reference = "Page 4" :=
  (claim3_reference_precedence _).2.2.1 (by with_unfolding_all decide)

/-- Claim C4: when retrieval succeeds with zero fragments the handler
returns the 200 success response whose answer is the fixed non-empty
fallback string and whose citations and retrieval trace are empty, and the
answer generator is not invoked. -/
theorem claim4_empty_retrieval_success
    (dist : List ℚ → List ℚ → ℚ) (store : Store)
    (embed : String → Except String (List ℚ))
    (generate : String → String → Except String String)
    (query user_id : Option String) (emb : List ℚ)
    (hq : jsFalsyStr query = false) (hu : jsFalsyStr user_id = false)
    (he : embed (query.getD "") = .ok emb)
    (hmt : match_document_chunks dist store emb (mkRat 3 10) 10 user_id = []) :
    handleQuery dist store embed generate none query user_id =
      (.success fallbackAnswer [] [], ⟨true, true, false⟩) ∧
    fallbackAnswer ≠ "" := by
  constructor
  · unfold handleQuery
    rw [if_neg (by simp [hq, hu]), he]
    simp only [hmt]
    rfl
  · intro hcontra
    exact absurd hcontra (by with_unfolding_all decide)

/-- Witness for C4: the empty store yields the fallback success response
without a generation call. -/
theorem claim4_empty_retrieval_success_witness :
    handleQuery sampleDist emptyStore sampleEmbed sampleGenerate none
        (some "q") (some "u1") =
      (.success fallbackAnswer [] [], ⟨true, true, false⟩) ∧
    fallbackAnswer ≠ "" :=
  claim4_empty_retrieval_success sampleDist emptyStore sampleEmbed
    sampleGenerate (some "q") (some "u1") []
    (by with_unfolding_all decide) (by with_unfolding_all decide)
    (by with_unfolding_all rfl) (by with_unfolding_all decide)

/-- Claim C5 as stated is false: a whitespace-only question is a truthy JS
string, so it passes the `!query` check — the handler does not answer 400
and the embedding call is attempted. -/
theorem claim5_whitespace_counterexample :
    (handleQuery sampleDist sampleStore sampleEmbed sampleGenerate none
        (some " ") (some "u1")).2.embedCalled = true ∧
    (handleQuery sampleDist sampleStore sampleEmbed sampleGenerate none
        (some " ") (some "u1")).1 ≠
      Response.badRequest "Query and user_id are required" := by
  with_unfolding_all decide

/-- Claim C5 amended: validation is JS falsiness.  A missing or empty
question string, or a missing or empty owner identifier, yields the 400
InvalidRequest response and no outbound call (embedding, retrieval,
generation) is attempted; a whitespace-only question is truthy and is NOT
rejected. -/
theorem claim5_validation_falsiness
    (dist : List ℚ → List ℚ → ℚ) (store : Store)
    (embed : String → Except String (List ℚ))
    (generate : String → String → Except String String)
    (se : Option String) (query user_id : Option String)
    (h : query = none ∨ query = some "" ∨ user_id = none ∨ user_id = some "") :
    handleQuery dist store embed generate se query user_id =
      (.badRequest "Query and user_id are required", ⟨false, false, false⟩) := by
  have hv : (jsFalsyStr query || jsFalsyStr user_id) = true := by
    rcases h with rfl | rfl | rfl | rfl <;> simp [jsFalsyStr]
  unfold handleQuery
  rw [if_pos hv]

/-- Witness for the amended C5: a missing question is rejected with 400 and
no calls. -/
theorem claim5_validation_falsiness_witness :
    handleQuery sampleDist sampleStore sampleEmbed sampleGenerate none
        none (some "u1") =
      (.badRequest "Query and user_id are required", ⟨false, false, false⟩) :=
  claim5_validation_falsiness sampleDist sampleStore sampleEmbed
    sampleGenerate none none (some "u1") (Or.inl rfl)

/-- Claim C6: every returned fragment comes from a store chunk joined with
a store document such that the document is completed, the chunk's embedding
is non-null, and, when the owner filter is set, the document belongs to
that owner. -/
theorem claim6_eligibility (dist : List ℚ → List ℚ → ℚ) (store : Store)
    (qe : List ℚ) (θ : ℚ) (k : ℕ) (f : Option String) (r : Row)
    (h : r ∈ match_document_chunks dist store qe θ k f) :
    ∃ dc ∈ store.document_chunks, ∃ d ∈ store.documents,
      r = rowOfPair dist qe (dc, d) ∧ d.id = dc.document_id ∧
      dc.embedding.isSome = true ∧ d.processing_status = "completed" ∧
      ∀ u, f = some u → d.uploaded_by = u := by
  obtain ⟨dc, hdc, d, hd, hrow, hid, hemb, _, hstatus, hown⟩ :=
    mem_match_document_chunks dist store qe θ k f r h
  exact ⟨dc, hdc, d, hd, hrow, hid, hemb, hstatus, hown⟩

/-- Witness for C6 at the sample store with owner filter u1. -/
theorem claim6_eligibility_witness :
    ∃ dc ∈ sampleStore.document_chunks, ∃ d ∈ sampleStore.documents,
      rowA = rowOfPair sampleDist [] (dc, d) ∧ d.id = dc.document_id ∧
      dc.embedding.isSome = true ∧ d.processing_status = "completed" ∧
      ∀ u, (some "u1" : Option String) = some u → d.uploaded_by = u :=
  claim6_eligibility sampleDist sampleStore [] (mkRat 3 10) 10 (some "u1")
    rowA (by with_unfolding_all decide)

/-- Claim C8 as stated is false: an embedding failure and a generation
failure with the same message produce identical user-visible responses
(the generic 500 Internal-server-error envelope), so the embedding failure
kind is not distinguishable from every other failure kind; the part of the
claim that holds is that no retrieval call is made. -/
theorem claim8_indistinguishable_counterexample :
    (handleQuery sampleDist sampleStore embedFailing sampleGenerate none
        (some "q") (some "u1")).1 =
      (handleQuery sampleDist sampleStore sampleEmbed generateFailing none
        (some "q") (some "u1")).1 ∧
    (handleQuery sampleDist sampleStore embedFailing sampleGenerate none
        (some "q") (some "u1")).1 =
      Response.internalError "Internal server error" "upstream unreachable" ∧
    (handleQuery sampleDist sampleStore sampleEmbed generateFailing none
        (some "q") (some "u1")).2.generateCalled = true ∧
    (handleQuery sampleDist sampleStore embedFailing sampleGenerate none
        (some "q") (some "u1")).2.retrieveCalled = false := by
  with_unfolding_all decide

/-- Claim C8 amended: when the embedding capability fails the pipeline
returns the generic 500 Internal-server-error envelope carrying the failure
message — the same envelope a generation failure produces, so the kind is
distinguishable from the validation (400) and retrieval ("Search failed")
responses but not from other unexpected failures — and no retrieval or
generation call is made for that request. -/
theorem claim8_embedding_failure_generic
    (dist : List ℚ → List ℚ → ℚ) (store : Store)
    (embed : String → Except String (List ℚ))
    (generate : String → String → Except String String)
    (se : Option String) (query user_id : Option String) (msg : String)
    (hq : jsFalsyStr query = false) (hu : jsFalsyStr user_id = false)
    (he : embed (query.getD "") = .error msg) :
    handleQuery dist store embed generate se query user_id =
      (.internalError "Internal server error" msg, ⟨true, false, false⟩) := by
  unfold handleQuery
  rw [if_neg (by simp [hq, hu]), he]

/-- Witness for the amended C8: a concrete unreachable embedding capability
yields the generic envelope with no retrieval call. -/
theorem claim8_embedding_failure_generic_witness :
    handleQuery sampleDist sampleStore embedFailing sampleGenerate none
        (some "q") (some "u1") =
      (.internalError "Internal server error" "upstream unreachable",
       ⟨true, false, false⟩) :=
  claim8_embedding_failure_generic sampleDist sampleStore embedFailing
    sampleGenerate none (some "q") (some "u1") "upstream unreachable"
    (by with_unfolding_all decide) (by with_unfolding_all decide)
    (by with_unfolding_all rfl)

/-- Claim C9: two successful runs with the same question, owner and store
state (and the same deterministic embedding capability) produce the same
citations and the same retrieval trace, even when the generation
capabilities differ. -/
theorem claim9_determinism
    (dist : List ℚ → List ℚ → ℚ) (store : Store)
    (embed : String → Except String (List ℚ))
    (g₁ g₂ : String → String → Except String String)
    (se : Option String) (query user_id : Option String)
    (a₁ a₂ : String) (c₁ c₂ : List Citation) (r₁ r₂ : List RetrievedChunk)
    (h₁ : (handleQuery dist store embed g₁ se query user_id).1 =
      .success a₁ c₁ r₁)
    (h₂ : (handleQuery dist store embed g₂ se query user_id).1 =
      .success a₂ c₂ r₂) :
    c₁ = c₂ ∧ r₁ = r₂ := by
  obtain ⟨e₁, he₁, -, hcase₁⟩ :=
    success_shape dist store embed g₁ se query user_id a₁ c₁ r₁ h₁
  obtain ⟨e₂, he₂, -, hcase₂⟩ :=
    success_shape dist store embed g₂ se query user_id a₂ c₂ r₂ h₂
  have hee : e₁ = e₂ := by
    rw [he₁] at he₂
    exact (Except.ok.inj he₂)
  subst hee
  rcases hcase₁ with ⟨hnil₁, -, hc₁, hr₁⟩ | ⟨hne₁, hc₁, hr₁⟩ <;>
    rcases hcase₂ with ⟨hnil₂, -, hc₂, hr₂⟩ | ⟨hne₂, hc₂, hr₂⟩
  · exact ⟨hc₁.trans hc₂.symm, hr₁.trans hr₂.symm⟩
  · exact absurd hnil₁ hne₂
  · exact absurd hnil₂ hne₁
  · exact ⟨hc₁.trans hc₂.symm, hr₁.trans hr₂.symm⟩

/-- Witness for C9: two concrete runs with different generation
capabilities agree on citations and trace. -/
theorem claim9_determinism_witness :
    buildCitations [rowA, rowB] = buildCitations [rowA, rowB] ∧
    ([rowA, rowB].map retrievedOf : List RetrievedChunk) =
      [rowA, rowB].map retrievedOf :=
  claim9_determinism sampleDist sampleStore sampleEmbed sampleGenerate
    (fun _ _ => .ok "other answer") none (some "q") (some "u1")
    "answer" "other answer" (buildCitations [rowA, rowB])
    (buildCitations [rowA, rowB]) ([rowA, rowB].map retrievedOf)
    ([rowA, rowB].map retrievedOf)
    (by with_unfolding_all rfl) (by with_unfolding_all rfl)

/-- Claim C10: presence in the reference-precedence rule is decided by JS
truthiness, not key existence — a present-but-falsy page number is skipped
in favour of the timestamp form or the chunk form, and a
present-but-falsy timestamp falls through to the chunk form. -/
theorem claim10_truthiness (r : Row) (m : ChunkMetadata) (v : JsonVal)
    (hm : r.chunk_metadata = some m) (hpn : m.page_number = some v)
    (hv : v.truthy = false) :
    (∀ w, m.timestamp = some w → w.truthy = true →
      (citationOf r).reference = "Timestamp " ++ w.jsShow) ∧
    (∀ w, m.timestamp = some w → w.truthy = false →
      (citationOf r).reference = "Chunk " ++ toString r.chunk_index) ∧
    (m.timestamp = none →
      (citationOf r).reference = "Chunk " ++ toString r.chunk_index) := by
  refine ⟨?_, ?_, ?_⟩
  · intro w hw hwt
    simp [citationOf, referenceOf, pageNumberOf, timestampOf, hm, hpn, hv,
      truthyOpt, hw, hwt, jsShowOpt]
  · intro w hw hwf
    simp [citationOf, referenceOf, pageNumberOf, timestampOf, hm, hpn, hv,
      truthyOpt, hw, hwf]
  · intro hw
    simp [citationOf, referenceOf, pageNumberOf, timestampOf, hm, hpn, hv,
      truthyOpt, hw]

/-- Witness for C10: the sample chunk with page number 0 (falsy) and
timestamp "5:00" (truthy) gets the timestamp form. -/
theorem claim10_truthiness_witness :
    (citationOf rowB).reference = "Timestamp 5:00" :=
  (claim10_truthiness rowB ⟨some (.num 0), some (.str "5:00")⟩ (.num 0)
    (by with_unfolding_all rfl) (by with_unfolding_all rfl)
    (by with_unfolding_all decide)).1
    (.str "5:00") (by with_unfolding_all rfl) (by with_unfolding_all decide)

end Rag
